import Mathlib

/-!
Shallow embedding of the style-transition engine in
`packages/react-strict-dom/src/native/modules/useStyleTransition.js`.

JavaScript values that flow through the engine are modelled explicitly:
scalars are rationals (JS numbers, without NaN except where a coercion can
produce it) or strings; a style bag is an association list from property
names to values; an array value carries a reference identifier `ref : Nat`
that models JavaScript object identity, because the engine compares arrays
with `===` (identity), not structurally.
-/

namespace RSD

/-- A JavaScript scalar value: a number or a string. -/
inductive Scalar where
  | num (q : ℚ)
  | str (s : String)
deriving DecidableEq, Repr

/-- One entry of a transform stack: an object with up to fourteen optional
fields, mirroring the `Transform` union of react-native. The `matrix`
payload is an array of numbers and is never interpolated. -/
structure Transform where
  perspective : Option Scalar := none
  rotate : Option Scalar := none
  rotateX : Option Scalar := none
  rotateY : Option Scalar := none
  rotateZ : Option Scalar := none
  scale : Option Scalar := none
  scaleX : Option Scalar := none
  scaleY : Option Scalar := none
  scaleZ : Option Scalar := none
  skewX : Option Scalar := none
  skewY : Option Scalar := none
  translateX : Option Scalar := none
  translateY : Option Scalar := none
  matrix : Option (List ℚ) := none
deriving DecidableEq, Repr

/-- A style value: number, string, or an array of transforms. The `ref`
field models JavaScript array identity for `===` comparisons. -/
inductive StyleValue where
  | num (q : ℚ)
  | str (s : String)
  | list (ref : ℕ) (ts : List Transform)
deriving DecidableEq, Repr

/-- A style bag: an association list from property names to values,
in insertion order, with unique keys (a JavaScript object). -/
def Style := List (String × StyleValue)

instance : DecidableEq Style := by unfold Style; infer_instance

/-- JavaScript property read `obj[key]`: the value at the first matching
key, or `none` for `undefined`. -/
def jsGet {α : Type} : List (String × α) → String → Option α
  | [], _ => none
  | (k, v) :: rest, key => if k = key then some v else jsGet rest key

/-- JavaScript property write `obj[key] = v`: replaces the value at an
existing key in place, otherwise appends the new key at the end. -/
def jsSet {α : Type} : List (String × α) → String → α → List (String × α)
  | [], key, v => [(key, v)]
  | (k, w) :: rest, key, v =>
    if k = key then (k, v) :: rest else (k, w) :: jsSet rest key v

/-- JavaScript `typeof` of a possibly-undefined style value. -/
def jsTypeofO : Option StyleValue → String
  | none => "undefined"
  | some (.num _) => "number"
  | some (.str _) => "string"
  | some (.list _ _) => "object"

/-- JavaScript `===` between two defined style values: literal equality for
numbers and strings, object identity for arrays. -/
def strictEqV : StyleValue → StyleValue → Bool
  | .num a, .num b => decide (a = b)
  | .str a, .str b => decide (a = b)
  | .list r _, .list r' _ => decide (r = r')
  | _, _ => false

/-- JavaScript `===` between two possibly-undefined style values. -/
def strictEqO : Option StyleValue → Option StyleValue → Bool
  | none, none => true
  | some a, some b => strictEqV a b
  | _, _ => false

/-- JavaScript `===` between a transform object and a string: an object is
never strictly equal to a string, so this is always false. It models the
per-element comparison performed by `value.includes('skew')` in
`canUseNativeDriver`, where the elements are transform objects. -/
def transformStrictEqStr (_t : Transform) (_s : String) : Bool := false

/-- Source `canUseNativeDriver` (useStyleTransition.js lines 39-60): for an
undefined subset, false; otherwise every key must be `opacity`, or
`transform` with an array value whose `includes('skew')` test fails. -/
def canUseNativeDriver (transitionProperties : Option Style) : Bool :=
  match transitionProperties with
  | none => false
  | some props =>
    props.all fun kv =>
      let value := jsGet props kv.1
      if kv.1 = "opacity" then true
      else if kv.1 = "transform" then
        match value with
        | some (.list _ ts) => !(ts.any (fun t => transformStrictEqStr t "skew"))
        | _ => false
      else false

/-- Splitting worker over character lists: scan left to right, cut at each
occurrence of the nonempty separator. The fuel bounds the number of steps;
one character or one separator is consumed per step, so fuel exceeding the
input length never runs out. -/
def splitAux (sep : List Char) : ℕ → List Char → List Char → List (List Char)
  | 0, acc, cs => [acc.reverse ++ cs]
  | fuel + 1, acc, cs =>
    if sep.isPrefixOf cs then
      acc.reverse :: splitAux sep fuel [] (cs.drop sep.length)
    else
      match cs with
      | [] => [acc.reverse]
      | c :: rest => splitAux sep fuel (c :: acc) rest

/-- Model of JavaScript `String.prototype.split(sep)` for a nonempty
string separator. -/
def jsSplit (s sep : String) : List String :=
  (splitAux sep.data (s.data.length + 1) [] s.data).map fun cs => String.mk cs

/-- Model of JavaScript `String.prototype.trim`: remove ASCII whitespace
from both ends. -/
def jsTrim (s : String) : String :=
  String.mk (((s.data.dropWhile Char.isWhitespace).reverse.dropWhile
    Char.isWhitespace).reverse)

/-- JavaScript `String.prototype.includes(sub)` for a nonempty `sub`:
true when `sub` occurs in the string, detected by splitting. -/
def jsIncludes (s sub : String) : Bool := (jsSplit s sub).length != 1

/-- Numeric value of a list of decimal digit characters. -/
def digitsVal (ds : List Char) : ℕ :=
  ds.foldl (fun a c => a * 10 + (c.toNat - 48)) 0

/-- Parse an unsigned decimal literal (digits, optional dot, digits) from
the front of a character list; `none` when no digit is found. -/
def parseUnsigned (cs : List Char) : Option (ℚ × List Char) :=
  let ip := cs.takeWhile Char.isDigit
  let rest := cs.dropWhile Char.isDigit
  match rest with
  | '.' :: rest2 =>
    let fp := rest2.takeWhile Char.isDigit
    let rest3 := rest2.dropWhile Char.isDigit
    if ip.isEmpty && fp.isEmpty then none
    else
      some (Rat.divInt ((digitsVal ip * 10 ^ fp.length + digitsVal fp : ℕ) : ℤ)
        (((10 ^ fp.length : ℕ) : ℤ)), rest3)
  | _ => if ip.isEmpty then none else some ((digitsVal ip : ℚ), rest)

/-- Parse an optionally signed decimal literal from a character list. -/
def parseSigned (cs : List Char) : Option (ℚ × List Char) :=
  match cs with
  | '-' :: rest => (parseUnsigned rest).map (fun p => (-p.1, p.2))
  | '+' :: rest => parseUnsigned rest
  | _ => parseUnsigned cs

/-- Model of the JavaScript `parseFloat` builtin restricted to plain
decimal literals (exponents and Infinity are not modelled; the CSS
cubic-bezier control points handled here are plain decimals). The result
is `none` for NaN. -/
def parseFloat (s : String) : Option ℚ :=
  (parseSigned (s.data.dropWhile Char.isWhitespace)).map (fun p => p.1)

/-- Model of the JavaScript `Number(string)` coercion: empty or blank
strings give 0; otherwise the whole trimmed string must be a signed
decimal literal, else NaN (`none`). -/
def jsNumberOfString (s : String) : Option ℚ :=
  let cs := (jsTrim s).data
  if cs.isEmpty then some 0
  else
    match parseSigned cs with
    | some (q, []) => some q
    | _ => none

/-- Model of the JavaScript unary plus coercion on a possibly-undefined
scalar: numbers pass through, strings go through `Number`, undefined is
NaN (`none`). -/
def jsUnaryPlus : Option Scalar → Option ℚ
  | none => none
  | some (.num q) => some q
  | some (.str s) => jsNumberOfString s

/-- The result of the external `Easing` collaborator as selected by
`getEasingFunction`: one of the four named curves, a cubic bezier with
parsed control points (`none` marks a NaN point), or linear. -/
inductive EasingFunction where
  | ease
  | easeIn
  | easeOut
  | easeInOut
  | bezier (points : List (Option ℚ))
  | linear
deriving DecidableEq, Repr

/-- Source `getEasingFunction` (lines 62-78). The result is `none` when
the source would throw: an input containing `cubic-bezier` but not
`cubic-bezier(` makes `input.split('cubic-bezier(')[1]` undefined, and the
subsequent `.split(')')` raises a TypeError. -/
def getEasingFunction (input : Option String) : Option EasingFunction :=
  match input with
  | some s =>
    if s = "ease" then some .ease
    else if s = "ease-in" then some .easeIn
    else if s = "ease-out" then some .easeOut
    else if s = "ease-in-out" then some .easeInOut
    else if jsIncludes s "cubic-bezier" then
      match (jsSplit s "cubic-bezier(").get? 1 with
      | some chunk =>
        let core := (jsSplit chunk ")").headD ""
        some (.bezier ((jsSplit core ",").map (fun point => parseFloat (jsTrim point))))
      | none => none
    else some .linear
  | none => some .linear

/-- JavaScript `typeof v === 'string'` on a possibly-undefined value. -/
def jsIsString : Option StyleValue → Bool
  | some (.str _) => true
  | _ => false

/-- Source `getTransitionProperties` (lines 80-88): `'all'` expands to
opacity and transform; any other string splits on commas with each name
trimmed; every non-string input yields `none`. -/
def getTransitionProperties (property : Option StyleValue) : Option (List String) :=
  if property = some (.str "all") then some ["opacity", "transform"]
  else
    match property with
    | some (.str s) => some ((jsSplit s ",").map jsTrim)
    | _ => none

/-- Condition of the early-return loop body of
`transformsHaveSameLengthTypesAndOrder` (lines 98-114): true when some
kind is present in the first entry but absent in the second. -/
def sameShapeEntry (a b : Transform) : Bool :=
  (a.perspective.isSome && b.perspective.isNone) ||
  (a.rotate.isSome && b.rotate.isNone) ||
  (a.rotateX.isSome && b.rotateX.isNone) ||
  (a.rotateY.isSome && b.rotateY.isNone) ||
  (a.rotateZ.isSome && b.rotateZ.isNone) ||
  (a.scale.isSome && b.scale.isNone) ||
  (a.scaleX.isSome && b.scaleX.isNone) ||
  (a.scaleY.isSome && b.scaleY.isNone) ||
  (a.scaleZ.isSome && b.scaleZ.isNone) ||
  (a.skewX.isSome && b.skewX.isNone) ||
  (a.skewY.isSome && b.skewY.isNone) ||
  (a.translateX.isSome && b.translateX.isNone) ||
  (a.translateY.isSome && b.translateY.isNone)

/-- Source `transformsHaveSameLengthTypesAndOrder` (lines 90-119): false on
a length mismatch, otherwise no position may trip `sameShapeEntry`. -/
def transformsHaveSameLengthTypesAndOrder
    (transformsA transformsB : List Transform) : Bool :=
  if transformsA.length ≠ transformsB.length then false
  else (transformsA.zip transformsB).all fun p => !(sameShapeEntry p.1 p.2)

/-- Condition of the early-return loop body of `transformListsAreEqual`
(lines 131-145): true when some kind present in the first entry has a
value not strictly equal to the corresponding field of the second. -/
def valuesEqualEntry (tA tB : Transform) : Bool :=
  (tA.perspective.isSome && decide (tA.perspective ≠ tB.perspective)) ||
  (tA.rotate.isSome && decide (tA.rotate ≠ tB.rotate)) ||
  (tA.rotateX.isSome && decide (tA.rotateX ≠ tB.rotateX)) ||
  (tA.rotateY.isSome && decide (tA.rotateY ≠ tB.rotateY)) ||
  (tA.rotateZ.isSome && decide (tA.rotateZ ≠ tB.rotateZ)) ||
  (tA.scale.isSome && decide (tA.scale ≠ tB.scale)) ||
  (tA.scaleX.isSome && decide (tA.scaleX ≠ tB.scaleX)) ||
  (tA.scaleY.isSome && decide (tA.scaleY ≠ tB.scaleY)) ||
  (tA.scaleZ.isSome && decide (tA.scaleZ ≠ tB.scaleZ)) ||
  (tA.skewX.isSome && decide (tA.skewX ≠ tB.skewX)) ||
  (tA.skewY.isSome && decide (tA.skewY ≠ tB.skewY)) ||
  (tA.translateX.isSome && decide (tA.translateX ≠ tB.translateX)) ||
  (tA.translateY.isSome && decide (tA.translateY ≠ tB.translateY))

/-- Source `transformListsAreEqual` (lines 121-150): requires the shape
check first, then no position may trip `valuesEqualEntry`. -/
def transformListsAreEqual (transformsA transformsB : List Transform) : Bool :=
  if !(transformsHaveSameLengthTypesAndOrder transformsA transformsB) then false
  else (transformsA.zip transformsB).all fun p => !(valuesEqualEntry p.1 p.2)

/-- Per-key body of the for-in loop of `transitionStyleHasChanged`
(lines 165-187): a `typeof` difference, a transform-list difference, or a
strict-equality difference reports a change. -/
def transitionChangedAt (next prev : Style) (key : String) : Bool :=
  let prevValue := jsGet prev key
  let nextValue := jsGet next key
  if jsTypeofO prevValue ≠ jsTypeofO nextValue then true
  else
    match prevValue, nextValue with
    | some (.list _ a), some (.list _ b) =>
      if !(transformListsAreEqual a b) then true
      else !(strictEqO prevValue nextValue)
    | _, _ => !(strictEqO prevValue nextValue)

/-- Source `transitionStyleHasChanged` (lines 152-190): false for an
undefined next; true when prev is undefined but next is not (a `typeof`
difference); otherwise some key of next must report a change. -/
def transitionStyleHasChanged (next prev : Option Style) : Bool :=
  match next with
  | none => false
  | some n =>
    match prev with
    | none => true
    | some p => n.any fun kv => transitionChangedAt n p kv.1

/-- The thirteen interpolable transform kinds plus matrix. -/
inductive TKind where
  | perspective | rotate | rotateX | rotateY | rotateZ
  | scale | scaleX | scaleY | scaleZ
  | skewX | skewY | translateX | translateY | matrix
deriving DecidableEq, Repr

/-- The thirteen interpolable kinds in the fixed priority order of the
source decomposition loop (lines 357-500). -/
def kinds13 : List TKind :=
  [.perspective, .rotate, .rotateX, .rotateY, .rotateZ,
   .scale, .scaleX, .scaleY, .scaleZ,
   .skewX, .skewY, .translateX, .translateY]

/-- Whether a kind is present (non-null) in a transform entry. -/
def kindPresent (k : TKind) (t : Transform) : Bool :=
  match k with
  | .perspective => t.perspective.isSome
  | .rotate => t.rotate.isSome
  | .rotateX => t.rotateX.isSome
  | .rotateY => t.rotateY.isSome
  | .rotateZ => t.rotateZ.isSome
  | .scale => t.scale.isSome
  | .scaleX => t.scaleX.isSome
  | .scaleY => t.scaleY.isSome
  | .scaleZ => t.scaleZ.isSome
  | .skewX => t.skewX.isSome
  | .skewY => t.skewY.isSome
  | .translateX => t.translateX.isSome
  | .translateY => t.translateY.isSome
  | .matrix => t.matrix.isSome

/-- The scalar field of an interpolable kind in a transform entry; the
matrix payload is not a scalar and is never queried through this. -/
def kindVal (k : TKind) (t : Transform) : Option Scalar :=
  match k with
  | .perspective => t.perspective
  | .rotate => t.rotate
  | .rotateX => t.rotateX
  | .rotateY => t.rotateY
  | .rotateZ => t.rotateZ
  | .scale => t.scale
  | .scaleX => t.scaleX
  | .scaleY => t.scaleY
  | .scaleZ => t.scaleZ
  | .skewX => t.skewX
  | .skewY => t.skewY
  | .translateX => t.translateX
  | .translateY => t.translateY
  | .matrix => none

/-- An endpoint of an interpolation output range: a raw scalar, NaN from a
failed numeric coercion, or undefined (unreachable under the checks the
engine performs before interpolating). -/
inductive EndVal where
  | undef
  | nan
  | val (s : Scalar)
deriving DecidableEq, Repr

/-- Endpoint produced by the unary-plus numeric coercion. -/
def numE (o : Option ℚ) : EndVal :=
  match o with
  | none => .nan
  | some q => .val (.num q)

/-- Endpoint taken verbatim from an optional scalar field. -/
def rawE (o : Option Scalar) : EndVal :=
  match o with
  | none => .undef
  | some v => .val v

/-- A single-kind animated transform entry: the interpolation of one kind
over the clock, with `[0,1]` input range and the recorded output range. -/
structure AnimTransform where
  kind : TKind
  fromE : EndVal
  toE : EndVal
deriving DecidableEq, Repr

/-- The animated entry the decomposition loop pushes for one kind: the
numeric kinds (perspective, the scale family, the translate family) apply
unary plus to the from endpoint; the angle kinds (rotate family, skew
family) keep both endpoints raw. Mirrors the push bodies of lines
357-500. -/
def mkAnimForKind (k : TKind) (r t : Transform) : AnimTransform :=
  match k with
  | .perspective => ⟨.perspective, numE (jsUnaryPlus r.perspective), rawE t.perspective⟩
  | .rotate => ⟨.rotate, rawE r.rotate, rawE t.rotate⟩
  | .rotateX => ⟨.rotateX, rawE r.rotateX, rawE t.rotateX⟩
  | .rotateY => ⟨.rotateY, rawE r.rotateY, rawE t.rotateY⟩
  | .rotateZ => ⟨.rotateZ, rawE r.rotateZ, rawE t.rotateZ⟩
  | .scale => ⟨.scale, numE (jsUnaryPlus r.scale), rawE t.scale⟩
  | .scaleX => ⟨.scaleX, numE (jsUnaryPlus r.scaleX), rawE t.scaleX⟩
  | .scaleY => ⟨.scaleY, numE (jsUnaryPlus r.scaleY), rawE t.scaleY⟩
  | .scaleZ => ⟨.scaleZ, numE (jsUnaryPlus r.scaleZ), rawE t.scaleZ⟩
  | .skewX => ⟨.skewX, rawE r.skewX, rawE t.skewX⟩
  | .skewY => ⟨.skewY, rawE r.skewY, rawE t.skewY⟩
  | .translateX => ⟨.translateX, numE (jsUnaryPlus r.translateX), rawE t.translateX⟩
  | .translateY => ⟨.translateY, numE (jsUnaryPlus r.translateY), rawE t.translateY⟩
  | .matrix => ⟨.matrix, .undef, .undef⟩

/-- Body of the decomposition loop (lines 353-501) for one pair of entries
`(singleRefTransform, singleTransform)`: a chain of ifs in the fixed
priority order, each pushing at most one animated entry and continuing.
The perspective and scale-family branches test presence only on the target
entry; the rotate, skew and translate families test both entries. -/
def animateEntry (r t : Transform) : List AnimTransform :=
  if t.perspective.isSome then [mkAnimForKind .perspective r t]
  else if r.rotate.isSome && t.rotate.isSome then [mkAnimForKind .rotate r t]
  else if r.rotateX.isSome && t.rotateX.isSome then [mkAnimForKind .rotateX r t]
  else if r.rotateY.isSome && t.rotateY.isSome then [mkAnimForKind .rotateY r t]
  else if r.rotateZ.isSome && t.rotateZ.isSome then [mkAnimForKind .rotateZ r t]
  else if t.scale.isSome then [mkAnimForKind .scale r t]
  else if t.scaleX.isSome then [mkAnimForKind .scaleX r t]
  else if t.scaleY.isSome then [mkAnimForKind .scaleY r t]
  else if t.scaleZ.isSome then [mkAnimForKind .scaleZ r t]
  else if r.skewX.isSome && t.skewX.isSome then [mkAnimForKind .skewX r t]
  else if r.skewY.isSome && t.skewY.isSome then [mkAnimForKind .skewY r t]
  else if r.translateX.isSome && t.translateX.isSome then [mkAnimForKind .translateX r t]
  else if r.translateY.isSome && t.translateY.isSome then [mkAnimForKind .translateY r t]
  else []

/-- The decomposition loop over a target stack and a reference stack of
equal length (the caller has already checked the lengths). -/
def animateTransforms (ts refs : List Transform) : List AnimTransform :=
  (ts.zip refs).flatMap fun p => animateEntry p.2 p.1

/-- The first kind of the fixed priority order present in an entry. -/
def firstPresentKind (t : Transform) : Option TKind :=
  kinds13.find? fun k => kindPresent k t

/-- Specification-side decomposition of one entry: emit the interpolation
for the first present kind of the target entry, or nothing. -/
def animEntrySpec (r t : Transform) : List AnimTransform :=
  match firstPresentKind t with
  | none => []
  | some k => [mkAnimForKind k r t]

/-- A diagnostic raised through `warnMsg` in development builds. -/
inductive Diag where
  | transformCountMismatch
  | matrixNotAnimatable
  | transformTypeMismatch
deriving DecidableEq, Repr

/-- Model of the JavaScript number-to-string coercion; exact for integers
(the only numeric values any claim renders), a rational rendering
otherwise. -/
def jsNumToString (q : ℚ) : String :=
  if q.den = 1 then toString q.num
  else toString q.num ++ "/" ++ toString q.den

/-- Model of the JavaScript `String` coercion of a style value: transform
arrays stringify elementwise as `[object Object]` joined by commas. -/
def jsToStringV : StyleValue → String
  | .num q => jsNumToString q
  | .str s => s
  | .list _ ts => String.intercalate "," (ts.map fun _ => "[object Object]")

/-- Model of the JavaScript unary plus coercion on a defined style value:
an empty array coerces to 0, a nonempty array of objects to NaN. -/
def jsUnaryPlusV : StyleValue → Option ℚ
  | .num q => some q
  | .str s => jsNumberOfString s
  | .list _ ts => if ts.isEmpty then some 0 else none

/-- A value of the merged output style: a literal style value, a numeric
or string interpolation bound to the progress clock with the recorded
output range, or an animated transform stack. -/
inductive AnimOut where
  | lit (v : StyleValue)
  | interpNum (fromN : Option ℚ) (toN : ℚ)
  | interpStr (fromS toS : String)
  | trans (ts : List AnimTransform)
deriving DecidableEq, Repr

/-- Body of the `outputAnimatedStyle` reducer (lines 290-507) for one
property of the transitionable subset: `none` in the first component means
the property is dropped from the animated output (the non-transform array
case); the second component collects the diagnostics raised. -/
def animateStyleValue (act : Bool) (prev : Option Style) (property : String)
    (value : StyleValue) : Option AnimOut × List Diag :=
  let startValue := (prev.bind fun p => jsGet p property).getD value
  if !act || strictEqV startValue value then (some (.lit value), [])
  else
    match value with
    | .num q => (some (.interpNum (jsUnaryPlusV startValue) q), [])
    | .str s => (some (.interpStr (jsToStringV startValue) s), [])
    | .list _ ts =>
      if property = "transform" then
        match startValue with
        | .list _ refs =>
          if decide (ts.length ≠ refs.length) then
            (some (.lit value), [.transformCountMismatch])
          else if ts.any (fun t => t.matrix.isSome) then
            (some (.lit value), [.matrixNotAnimatable])
          else if !(transformsHaveSameLengthTypesAndOrder ts refs) then
            (some (.lit value), [.transformTypeMismatch])
          else (some (.trans (animateTransforms ts refs)), [])
        | _ => (some (.lit value), [.transformCountMismatch])
      else (none, [])

/-- The reduce over `Object.entries(transitionStyle)` building the
animated output style, threading the accumulator and the diagnostics. -/
def buildAnimated (act : Bool) (prev : Option Style) :
    List (String × StyleValue) → List (String × AnimOut) → List Diag →
    List (String × AnimOut) × List Diag
  | [], acc, ds => (acc, ds)
  | (k, v) :: rest, acc, ds =>
    match animateStyleValue act prev k v with
    | (some o, ds2) => buildAnimated act prev rest (jsSet acc k o) (ds ++ ds2)
    | (none, ds2) => buildAnimated act prev rest acc (ds ++ ds2)

/-- JavaScript `Object.assign(target, source)`: each source entry written
into the target in order. -/
def objectAssign (target : List (String × AnimOut))
    (source : List (String × AnimOut)) : List (String × AnimOut) :=
  source.foldl (fun t kv => jsSet t kv.1 kv.2) target

/-- The four reserved transition directive keys removed by the
destructuring at lines 193-199. -/
def reservedKeys : List String :=
  ["transitionDelay", "transitionDuration", "transitionProperty",
   "transitionTimingFunction"]

/-- The `isString`, `isNumber`, `Array.isArray` guard of the transitionable
subset (line 211); every modelled style value is one of the three kinds. -/
def isTransitionValue : StyleValue → Bool
  | .num _ => true
  | .str _ => true
  | .list _ _ => true

/-- The transitionable subset `transitionStyle` (lines 207-215): the
resolved property list reduced into a fresh object holding the guarded
style values. -/
def mkTransitionStyle (style : Style) : Option Style :=
  (getTransitionProperties (jsGet style "transitionProperty")).map fun props =>
    props.foldl
      (fun output property =>
        match jsGet style property with
        | some v => if isTransitionValue v then jsSet output property v else output
        | none => output)
      []

/-- The persistent cells of the hook across update cycles: the two style
snapshots and the active clock handle (`none` means undefined; the number
models the identity of the `Animated.Value`). -/
structure HookState where
  currentStyle : Option Style
  previousStyle : Option Style
  animatedValue : Option ℕ
deriving DecidableEq

/-- A fresh `Animated.Value(0)` handle distinct from the current one. -/
def freshClock (st : HookState) : ℕ :=
  match st.animatedValue with
  | none => 0
  | some n => n + 1

/-- Result of one update cycle of the hook: the output style, the state
after the cycle, and the diagnostics raised. -/
structure HookResult where
  output : List (String × AnimOut)
  state : HookState
  diags : List Diag
deriving DecidableEq

/-- Source `useStyleTransition` (lines 192-512) as one synchronous update
cycle over explicit persistent state. On a detected change the state
setters fire and the raw input style is returned for the thrown-away
commit; on an undefined subset the raw input is returned; otherwise the
animated output is merged over the input minus the reserved keys. -/
def useStyleTransition (style : Style) (st : HookState) : HookResult :=
  let styleWithAnimations := style.filter fun kv => decide (kv.1 ∉ reservedKeys)
  let transitionStyle := mkTransitionStyle style
  if transitionStyleHasChanged transitionStyle st.currentStyle then
    { output := style.map fun kv => (kv.1, AnimOut.lit kv.2)
      state := ⟨some style, st.currentStyle, some (freshClock st)⟩
      diags := [] }
  else
    match transitionStyle with
    | none =>
      { output := style.map fun kv => (kv.1, AnimOut.lit kv.2)
        state := st
        diags := [] }
    | some ts =>
      let built := buildAnimated st.animatedValue.isSome st.previousStyle ts [] []
      { output := objectAssign
          (styleWithAnimations.map fun kv => (kv.1, AnimOut.lit kv.2)) built.1
        state := st
        diags := built.2 }

/-- Pointwise agreement of two transform entries on every field except the
matrix payload. -/
def agreeExceptMatrix (x y : Transform) : Prop :=
  x.perspective = y.perspective ∧ x.rotate = y.rotate ∧ x.rotateX = y.rotateX ∧
  x.rotateY = y.rotateY ∧ x.rotateZ = y.rotateZ ∧ x.scale = y.scale ∧
  x.scaleX = y.scaleX ∧ x.scaleY = y.scaleY ∧ x.scaleZ = y.scaleZ ∧
  x.skewX = y.skewX ∧ x.skewY = y.skewY ∧ x.translateX = y.translateX ∧
  x.translateY = y.translateY

instance (x y : Transform) : Decidable (agreeExceptMatrix x y) := by
  unfold agreeExceptMatrix
  infer_instance

lemma isSome_and_isNone_self (o : Option Scalar) : (o.isSome && o.isNone) = false := by
  cases o <;> rfl

lemma presence_clause (x y : Option Scalar) :
    (x.isSome && y.isNone) = false ↔ (x.isSome = true → y.isSome = true) := by
  cases x <;> cases y <;> simp

lemma value_clause (x y : Option Scalar) :
    (x.isSome && decide (x ≠ y)) = false ↔ (x.isSome = true → x = y) := by
  cases x <;> simp

lemma sameShapeEntry_eq_false_iff (a b : Transform) :
    sameShapeEntry a b = false ↔
      ∀ k ∈ kinds13, kindPresent k a = true → kindPresent k b = true := by
  simp [sameShapeEntry, Bool.or_eq_false_iff, presence_clause, kinds13, kindPresent,
    and_assoc]

lemma valuesEqualEntry_eq_false_iff (a b : Transform) :
    valuesEqualEntry a b = false ↔
      ∀ k ∈ kinds13, kindPresent k a = true → kindVal k a = kindVal k b := by
  simp [valuesEqualEntry, Bool.or_eq_false_iff, value_clause, kinds13, kindPresent,
    kindVal, and_assoc]

lemma sameShapeEntry_self (t : Transform) : sameShapeEntry t t = false := by
  simp [sameShapeEntry, isSome_and_isNone_self]

lemma valuesEqualEntry_self (t : Transform) : valuesEqualEntry t t = false := by
  simp [valuesEqualEntry]

lemma zip_self_all_not (f : Transform → Transform → Bool)
    (hf : ∀ x, f x x = false) (a : List Transform) :
    (a.zip a).all (fun p => !(f p.1 p.2)) = true := by
  induction a with
  | nil => rfl
  | cons x l ih => simp [List.zip_cons_cons, List.all_cons, hf, ih]

lemma sameShape_refl (a : List Transform) :
    transformsHaveSameLengthTypesAndOrder a a = true := by
  simp [transformsHaveSameLengthTypesAndOrder,
    zip_self_all_not sameShapeEntry sameShapeEntry_self]

lemma valuesEqual_refl (a : List Transform) : transformListsAreEqual a a = true := by
  simp [transformListsAreEqual, sameShape_refl,
    zip_self_all_not valuesEqualEntry valuesEqualEntry_self]

lemma strictEqV_refl (v : StyleValue) : strictEqV v v = true := by
  cases v <;> simp [strictEqV]

lemma strictEqO_refl (o : Option StyleValue) : strictEqO o o = true := by
  cases o with
  | none => rfl
  | some v => simpa [strictEqO] using strictEqV_refl v

lemma sameShape_cons_iff (t r : Transform) (ts rs : List Transform) :
    transformsHaveSameLengthTypesAndOrder (t :: ts) (r :: rs) = true ↔
      (sameShapeEntry t r = false ∧
        transformsHaveSameLengthTypesAndOrder ts rs = true) := by
  by_cases hl : ts.length = rs.length <;>
    simp [transformsHaveSameLengthTypesAndOrder, hl, List.zip_cons_cons,
      List.all_cons, Bool.not_eq_true']

lemma jsGet_cons_eq_none {α : Type} (k : String) (v : α) (rest : List (String × α))
    (q : String) : jsGet ((k, v) :: rest) q = none ↔ (k ≠ q ∧ jsGet rest q = none) := by
  by_cases h : k = q <;> simp [jsGet, h]

lemma jsGet_jsSet_ne {α : Type} (l : List (String × α)) (k q : String) (v : α)
    (h : k ≠ q) : jsGet (jsSet l k v) q = jsGet l q := by
  induction l with
  | nil => simp [jsSet, jsGet, h]
  | cons kv rest ih =>
    obtain ⟨k', w⟩ := kv
    by_cases hk : k' = k
    · subst hk
      simp [jsSet, jsGet, h]
    · by_cases hq : k' = q
      · subst hq
        simp [jsSet, jsGet, hk]
      · simp [jsSet, jsGet, hk, hq, ih]

lemma jsGet_map_lit (l : Style) (q : String) :
    jsGet (l.map fun kv => (kv.1, AnimOut.lit kv.2)) q =
      (jsGet l q).map AnimOut.lit := by
  induction l with
  | nil => rfl
  | cons kv rest ih =>
    by_cases hq : kv.1 = q <;> simp [jsGet, hq, ih]

lemma jsGet_filter_key (p : String → Bool) (l : Style) (q : String) :
    jsGet (l.filter fun kv => p kv.1) q = if p q then jsGet l q else none := by
  induction l with
  | nil => cases hp : p q <;> simp [jsGet]
  | cons kv rest ih =>
    obtain ⟨k, v⟩ := kv
    by_cases hq : k = q
    · subst hq
      cases hp : p k <;> simp [List.filter, jsGet, hp, ih]
    · cases hp : p k <;> simp [List.filter, jsGet, hp, hq, ih]

lemma buildAnimated_jsGet_none (act : Bool) (prev : Option Style) (q : String)
    (entries : Style) (hq : jsGet entries q = none) :
    ∀ (acc : List (String × AnimOut)) (ds : List Diag),
      jsGet (buildAnimated act prev entries acc ds).1 q = jsGet acc q := by
  induction entries with
  | nil => intro acc ds; rfl
  | cons kv rest ih =>
    intro acc ds
    obtain ⟨k, v⟩ := kv
    obtain ⟨hk, hrest⟩ := (jsGet_cons_eq_none k v rest q).mp hq
    rcases hav : animateStyleValue act prev k v with ⟨o, ds2⟩
    cases o with
    | none => simp [buildAnimated, hav, ih hrest]
    | some w => simp [buildAnimated, hav, ih hrest, jsGet_jsSet_ne _ _ _ _ hk]

lemma objectAssign_jsGet_none (q : String) (source : List (String × AnimOut))
    (hq : jsGet source q = none) :
    ∀ target : List (String × AnimOut),
      jsGet (objectAssign target source) q = jsGet target q := by
  induction source with
  | nil => intro target; rfl
  | cons kv rest ih =>
    intro target
    obtain ⟨k, v⟩ := kv
    obtain ⟨hk, hrest⟩ := (jsGet_cons_eq_none k v rest q).mp hq
    have : objectAssign target ((k, v) :: rest) = objectAssign (jsSet target k v) rest := rfl
    rw [this, ih hrest, jsGet_jsSet_ne _ _ _ _ hk]

lemma agreeExceptMatrix_symm (x y : Transform) (h : agreeExceptMatrix x y) :
    agreeExceptMatrix y x := by
  obtain ⟨h1, h2, h3, h4, h5, h6, h7, h8, h9, h10, h11, h12, h13⟩ := h
  exact ⟨h1.symm, h2.symm, h3.symm, h4.symm, h5.symm, h6.symm, h7.symm, h8.symm,
    h9.symm, h10.symm, h11.symm, h12.symm, h13.symm⟩

lemma sameShapeEntry_of_agree (x y : Transform) (h : agreeExceptMatrix x y) :
    sameShapeEntry x y = false := by
  obtain ⟨h1, h2, h3, h4, h5, h6, h7, h8, h9, h10, h11, h12, h13⟩ := h
  simp [sameShapeEntry, h1, h2, h3, h4, h5, h6, h7, h8, h9, h10, h11, h12, h13,
    isSome_and_isNone_self]

lemma valuesEqualEntry_of_agree (x y : Transform) (h : agreeExceptMatrix x y) :
    valuesEqualEntry x y = false := by
  obtain ⟨h1, h2, h3, h4, h5, h6, h7, h8, h9, h10, h11, h12, h13⟩ := h
  simp [valuesEqualEntry, h1, h2, h3, h4, h5, h6, h7, h8, h9, h10, h11, h12, h13]

lemma sameShape_of_forall₂_agree (ts ts' : List Transform)
    (h : List.Forall₂ agreeExceptMatrix ts ts') :
    transformsHaveSameLengthTypesAndOrder ts ts' = true := by
  induction h with
  | nil => rfl
  | cons hxy _ ih =>
    exact (sameShape_cons_iff _ _ _ _).mpr ⟨sameShapeEntry_of_agree _ _ hxy, ih⟩

lemma valuesEqual_eq_true_of (ts ts' : List Transform)
    (hs : transformsHaveSameLengthTypesAndOrder ts ts' = true)
    (hall : ∀ p ∈ ts.zip ts', valuesEqualEntry p.1 p.2 = false) :
    transformListsAreEqual ts ts' = true := by
  simp only [transformListsAreEqual, hs, Bool.not_true, Bool.false_eq_true,
    if_false, List.all_eq_true]
  intro p hp
  simp [hall p hp]

lemma valuesEqual_of_forall₂_agree (ts ts' : List Transform)
    (h : List.Forall₂ agreeExceptMatrix ts ts') :
    transformListsAreEqual ts ts' = true := by
  apply valuesEqual_eq_true_of ts ts' (sameShape_of_forall₂_agree ts ts' h)
  intro p hp
  exact valuesEqualEntry_of_agree p.1 p.2
    ((List.forall₂_iff_zip.mp h).2 (by simpa using hp))

lemma animateEntry_eq_spec (r t : Transform) (h : sameShapeEntry t r = false) :
    animateEntry r t = animEntrySpec r t := by
  have hp := (sameShapeEntry_eq_false_iff t r).mp h
  by_cases h1 : t.perspective.isSome
  · simp [animateEntry, animEntrySpec, firstPresentKind, kinds13, List.find?, kindPresent, h1]
  · by_cases h2 : t.rotate.isSome
    · have hr : r.rotate.isSome = true := hp .rotate (by decide) (by simpa [kindPresent] using h2)
      simp [animateEntry, animEntrySpec, firstPresentKind, kinds13, List.find?, kindPresent, h1, h2, hr]
    · by_cases h3 : t.rotateX.isSome
      · have hr : r.rotateX.isSome = true := hp .rotateX (by decide) (by simpa [kindPresent] using h3)
        simp [animateEntry, animEntrySpec, firstPresentKind, kinds13, List.find?, kindPresent, h1, h2, h3, hr]
      · by_cases h4 : t.rotateY.isSome
        · have hr : r.rotateY.isSome = true := hp .rotateY (by decide) (by simpa [kindPresent] using h4)
          simp [animateEntry, animEntrySpec, firstPresentKind, kinds13, List.find?, kindPresent, h1, h2, h3, h4, hr]
        · by_cases h5 : t.rotateZ.isSome
          · have hr : r.rotateZ.isSome = true := hp .rotateZ (by decide) (by simpa [kindPresent] using h5)
            simp [animateEntry, animEntrySpec, firstPresentKind, kinds13, List.find?, kindPresent, h1, h2, h3, h4, h5, hr]
          · by_cases h6 : t.scale.isSome
            · simp [animateEntry, animEntrySpec, firstPresentKind, kinds13, List.find?, kindPresent, h1, h2, h3, h4, h5, h6]
            · by_cases h7 : t.scaleX.isSome
              · simp [animateEntry, animEntrySpec, firstPresentKind, kinds13, List.find?, kindPresent, h1, h2, h3, h4, h5, h6, h7]
              · by_cases h8 : t.scaleY.isSome
                · simp [animateEntry, animEntrySpec, firstPresentKind, kinds13, List.find?, kindPresent, h1, h2, h3, h4, h5, h6, h7, h8]
                · by_cases h9 : t.scaleZ.isSome
                  · simp [animateEntry, animEntrySpec, firstPresentKind, kinds13, List.find?, kindPresent, h1, h2, h3, h4, h5, h6, h7, h8, h9]
                  · by_cases h10 : t.skewX.isSome
                    · have hr : r.skewX.isSome = true := hp .skewX (by decide) (by simpa [kindPresent] using h10)
                      simp [animateEntry, animEntrySpec, firstPresentKind, kinds13, List.find?, kindPresent, h1, h2, h3, h4, h5, h6, h7, h8, h9, h10, hr]
                    · by_cases h11 : t.skewY.isSome
                      · have hr : r.skewY.isSome = true := hp .skewY (by decide) (by simpa [kindPresent] using h11)
                        simp [animateEntry, animEntrySpec, firstPresentKind, kinds13, List.find?, kindPresent, h1, h2, h3, h4, h5, h6, h7, h8, h9, h10, h11, hr]
                      · by_cases h12 : t.translateX.isSome
                        · have hr : r.translateX.isSome = true := hp .translateX (by decide) (by simpa [kindPresent] using h12)
                          simp [animateEntry, animEntrySpec, firstPresentKind, kinds13, List.find?, kindPresent, h1, h2, h3, h4, h5, h6, h7, h8, h9, h10, h11, h12, hr]
                        · by_cases h13 : t.translateY.isSome
                          · have hr : r.translateY.isSome = true := hp .translateY (by decide) (by simpa [kindPresent] using h13)
                            simp [animateEntry, animEntrySpec, firstPresentKind, kinds13, List.find?, kindPresent, h1, h2, h3, h4, h5, h6, h7, h8, h9, h10, h11, h12, h13, hr]
                          · simp [animateEntry, animEntrySpec, firstPresentKind, kinds13, List.find?, kindPresent, h1, h2, h3, h4, h5, h6, h7, h8, h9, h10, h11, h12, h13]

lemma sameShape_zip_entries : ∀ (ts rs : List Transform),
    transformsHaveSameLengthTypesAndOrder ts rs = true →
    ∀ p ∈ ts.zip rs, sameShapeEntry p.1 p.2 = false := by
  intro ts
  induction ts with
  | nil => intro rs _ p hp; simp at hp
  | cons t l ih =>
    intro rs h p hp
    cases rs with
    | nil => simp at hp
    | cons r rs =>
      obtain ⟨hh, htail⟩ := (sameShape_cons_iff t r l rs).mp h
      rcases List.mem_cons.mp (by simpa [List.zip_cons_cons] using hp) with h1 | h1
      · subst h1; exact hh
      · exact ih rs htail p h1

lemma animateTransforms_eq_spec_aux : ∀ (ts rs : List Transform),
    transformsHaveSameLengthTypesAndOrder ts rs = true →
    animateTransforms ts rs = (ts.zip rs).flatMap fun p => animEntrySpec p.2 p.1 := by
  intro ts
  induction ts with
  | nil => intro rs _; cases rs <;> rfl
  | cons t l ih =>
    intro rs h
    cases rs with
    | nil => simp [transformsHaveSameLengthTypesAndOrder] at h
    | cons r rs =>
      obtain ⟨hh, htail⟩ := (sameShape_cons_iff t r l rs).mp h
      have hiha := ih rs htail
      simp only [animateTransforms, List.zip_cons_cons, List.flatMap_cons] at hiha ⊢
      rw [animateEntry_eq_spec r t hh, hiha]

/-- C1. The source `canUseNativeDriver` accepts a transform stack that does
contain a skew operation: `value.includes('skew')` compares each transform
object against the string `skew` and is always false, so the intended skew
exclusion never fires. An undefined subset still yields false. -/
theorem canUseNativeDriver_skew_eval :
    canUseNativeDriver
        (some [("transform", .list 0 [{ skewX := some (.str "10deg") }])]) = true
    ∧ ({ skewX := some (.str "10deg") } : Transform).skewX.isSome = true
    ∧ canUseNativeDriver none = false := by decide

/-- C2 counterexample. `transformListsAreEqual` returns true for a pair of
stacks where the `scale` kind is present in the second entry but absent in
the first: presence in only one of the two entries is not detected when it
is the second. -/
theorem transformListsAreEqual_cex :
    transformListsAreEqual [{}] [{ scale := some (.num 2) }] = true
    ∧ kindPresent .scale { scale := some (.num 2) } = true
    ∧ kindPresent .scale ({} : Transform) = false := by decide

/-- C2 amended. `transformListsAreEqual a b` is true exactly when the shape
check holds and, at every position, every kind present in the entry of `a`
has an identical value in the entry of `b`; kinds present only in `b` and
the matrix payloads are never inspected. -/
theorem transformListsAreEqual_amended (a b : List Transform) :
    transformListsAreEqual a b = true ↔
      (transformsHaveSameLengthTypesAndOrder a b = true ∧
        ∀ p ∈ a.zip b, ∀ k ∈ kinds13,
          kindPresent k p.1 = true → kindVal k p.1 = kindVal k p.2) := by
  by_cases hs : transformsHaveSameLengthTypesAndOrder a b = true
  · simp only [transformListsAreEqual, hs, Bool.not_true, Bool.false_eq_true,
      if_false, List.all_eq_true, true_and]
    constructor
    · intro h p hp
      exact (valuesEqualEntry_eq_false_iff p.1 p.2).mp (by simpa using h p hp)
    · intro h p hp
      simpa using (valuesEqualEntry_eq_false_iff p.1 p.2).mpr (h p hp)
  · simp [transformListsAreEqual, hs]

/-- C2 amended, instantiated at a concrete equal pair of stacks. -/
theorem transformListsAreEqual_amended_witness :
    transformListsAreEqual [{ scale := some (.num 1) }]
      [{ scale := some (.num 1) }] = true :=
  (transformListsAreEqual_amended _ _).mpr ⟨by decide, by decide⟩

/-- C3 counterexample. `getEasingFunction` is not total: the input
`cubic-bezier` (no opening parenthesis) passes the `includes` guard, the
split on `cubic-bezier(` produces no second chunk, and the source throws a
TypeError, modelled as `none`. -/
theorem getEasingFunction_crash_cex :
    getEasingFunction (some "cubic-bezier") = none
    ∧ jsIncludes "cubic-bezier" "cubic-bezier" = true := by decide

/-- C3 amended. `getEasingFunction` never raises for null input or for
strings not containing `cubic-bezier` (unrecognized ones yield linear);
when the string splits into a chunk after `cubic-bezier(`, the bezier
curve is built from the comma-separated points parsed before the first
closing parenthesis, and `cubic-bezier(0.42, 0, 1, 1)` parses to the
control points 0.42, 0, 1, 1; but a string containing `cubic-bezier`
without a following parenthesis raises a TypeError. -/
theorem getEasingFunction_amended :
    (getEasingFunction none = some .linear)
    ∧ (∀ s : String, s ≠ "ease" → s ≠ "ease-in" → s ≠ "ease-out" →
        s ≠ "ease-in-out" →
        ((jsIncludes s "cubic-bezier" = false →
            getEasingFunction (some s) = some .linear)
         ∧ (jsIncludes s "cubic-bezier" = true →
             (jsSplit s "cubic-bezier(").get? 1 = none →
             getEasingFunction (some s) = none)
         ∧ (∀ chunk : String, jsIncludes s "cubic-bezier" = true →
             (jsSplit s "cubic-bezier(").get? 1 = some chunk →
             getEasingFunction (some s) =
               some (.bezier ((jsSplit ((jsSplit chunk ")").headD "") ",").map
                 fun point => parseFloat (jsTrim point))))))
    ∧ getEasingFunction (some "cubic-bezier(0.42, 0, 1, 1)") =
        some (.bezier [some (Rat.divInt 21 50), some 0, some 1, some 1]) := by
  refine ⟨rfl, ?_, by decide⟩
  intro s h1 h2 h3 h4
  refine ⟨?_, ?_, ?_⟩
  · intro hinc
    simp [getEasingFunction, h1, h2, h3, h4, hinc]
  · intro hinc hget
    simp only [List.get?_eq_getElem?] at hget
    simp [getEasingFunction, h1, h2, h3, h4, hinc, hget]
  · intro chunk hinc hget
    simp only [List.get?_eq_getElem?] at hget
    simp [getEasingFunction, h1, h2, h3, h4, hinc, hget]

/-- C3 amended, instantiated: an unrecognized plain name yields linear, the
bare `cubic-bezier` input yields the thrown-error result, and a wellformed
bezier string yields a bezier curve. -/
theorem getEasingFunction_amended_witness :
    getEasingFunction (some "bouncy") = some .linear
    ∧ getEasingFunction (some "cubic-bezier") = none
    ∧ getEasingFunction (some "cubic-bezier(1, 0, 0, 1)") =
        some (.bezier ((jsSplit ((jsSplit "1, 0, 0, 1)" ")").headD "") ",").map
          fun point => parseFloat (jsTrim point))) :=
  ⟨(getEasingFunction_amended.2.1 "bouncy" (by decide) (by decide) (by decide)
      (by decide)).1 (by decide),
   (getEasingFunction_amended.2.1 "cubic-bezier" (by decide) (by decide) (by decide)
      (by decide)).2.1 (by decide) (by decide),
   (getEasingFunction_amended.2.1 "cubic-bezier(1, 0, 0, 1)" (by decide) (by decide)
      (by decide) (by decide)).2.2 "1, 0, 0, 1)" (by decide) (by decide)⟩

/-- C6. The `transitionProperty` resolution: the literal `all` maps to
opacity and transform; any other string splits on commas with trimmed
names; any non-string value (absent included) resolves to no transitioning
properties. -/
theorem getTransitionProperties_spec :
    getTransitionProperties (some (.str "all")) = some ["opacity", "transform"]
    ∧ (∀ s : String, s ≠ "all" →
        getTransitionProperties (some (.str s)) = some ((jsSplit s ",").map jsTrim))
    ∧ ∀ v : Option StyleValue, jsIsString v = false →
        getTransitionProperties v = none := by
  refine ⟨by decide, ?_, ?_⟩
  · intro s hs
    simp [getTransitionProperties, hs]
  · intro v hv
    cases v with
    | none => simp [getTransitionProperties]
    | some w =>
      cases w with
      | num q => simp [getTransitionProperties]
      | str s => simp [jsIsString] at hv
      | list r ts => simp [getTransitionProperties]

/-- C6, instantiated at a comma-separated list and a numeric value. -/
theorem getTransitionProperties_spec_witness :
    getTransitionProperties (some (.str "margin, padding")) =
      some ((jsSplit "margin, padding" ",").map jsTrim)
    ∧ getTransitionProperties (some (.num 5)) = none :=
  ⟨getTransitionProperties_spec.2.1 "margin, padding" (by decide),
   getTransitionProperties_spec.2.2 (some (.num 5)) (by decide)⟩

/-- C7. On a compatible, matrix-free pair the decomposition loop emits, for
each entry, exactly the interpolation of the first kind of the fixed
priority order present in the target entry, dropping every other kind. -/
theorem animateTransforms_first_kind (ts refs : List Transform)
    (hshape : transformsHaveSameLengthTypesAndOrder ts refs = true)
    (_hmt : ∀ t ∈ ts, t.matrix = none) (_hmr : ∀ r ∈ refs, r.matrix = none) :
    animateTransforms ts refs = (ts.zip refs).flatMap fun p => animEntrySpec p.2 p.1 :=
  animateTransforms_eq_spec_aux ts refs hshape

/-- C7, instantiated at an entry carrying both rotate and scale: the rotate
kind, earlier in the priority order, is the one emitted. -/
theorem animateTransforms_first_kind_witness :
    transformsHaveSameLengthTypesAndOrder
        [{ rotate := some (.str "90deg"), scale := some (.num 2) }]
        [{ rotate := some (.str "0deg"), scale := some (.num 1) }] = true
    ∧ animateTransforms
        [{ rotate := some (.str "90deg"), scale := some (.num 2) }]
        [{ rotate := some (.str "0deg"), scale := some (.num 1) }] =
      ([({ rotate := some (.str "90deg"), scale := some (.num 2) } : Transform)].zip
        [({ rotate := some (.str "0deg"), scale := some (.num 1) } : Transform)]).flatMap
          fun p => animEntrySpec p.2 p.1 :=
  ⟨by decide, animateTransforms_first_kind _ _ (by decide) (by decide) (by decide)⟩

/-- C8. The Style Differ reports no change when the same defined snapshot
is supplied as both next and previous. -/
theorem transitionStyleHasChanged_refl (S : Style) :
    transitionStyleHasChanged (some S) (some S) = false := by
  show (S.any fun kv => transitionChangedAt S S kv.1) = false
  rw [List.any_eq_false]
  intro kv _
  simp only [transitionChangedAt]
  cases h : jsGet S kv.1 with
  | none => simp [jsTypeofO, strictEqO]
  | some v =>
    cases v with
    | num q => simp [jsTypeofO, strictEqO, strictEqV]
    | str s => simp [jsTypeofO, strictEqO, strictEqV]
    | list r ts => simp [jsTypeofO, strictEqO, strictEqV, valuesEqual_refl]

/-- C9. Both transform-stack comparisons are reflexive, and a length
mismatch makes the shape check false. -/
theorem transform_compare_refl_length :
    (∀ a : List Transform, transformsHaveSameLengthTypesAndOrder a a = true ∧
      transformListsAreEqual a a = true)
    ∧ ∀ a b : List Transform, a.length ≠ b.length →
        transformsHaveSameLengthTypesAndOrder a b = false := by
  constructor
  · intro a
    exact ⟨sameShape_refl a, valuesEqual_refl a⟩
  · intro a b h
    simp [transformsHaveSameLengthTypesAndOrder, h]

/-- C9, instantiated at a singleton stack against the empty stack. -/
theorem transform_compare_refl_length_witness :
    transformsHaveSameLengthTypesAndOrder [{ scale := some (.num 1) }] [] = false
    ∧ transformListsAreEqual [{ scale := some (.num 1) }]
        [{ scale := some (.num 1) }] = true :=
  ⟨transform_compare_refl_length.2 _ _ (by decide),
   (transform_compare_refl_length.1 _).2⟩

/-- C10 counterexample. Both comparisons return true when only the matrix
payloads differ, yet the Style Differ still reports a change for such
styles: the final identity comparison on the two distinct arrays fails. -/
theorem matrix_ignored_cex :
    (transformsHaveSameLengthTypesAndOrder [{ matrix := some [1] }]
        [{ matrix := some [2] }] = true
     ∧ transformListsAreEqual [{ matrix := some [1] }]
        [{ matrix := some [2] }] = true)
    ∧ transitionStyleHasChanged
        (some [("transform", .list 1 [{ matrix := some [1] }])])
        (some [("transform", .list 0 [{ matrix := some [2] }])]) = true := by decide

/-- C10 amended. Neither comparison inspects the matrix kind: on stacks
agreeing on every field except matrix, both return true; but the Style
Differ still reports a change whenever the two transform arrays are
distinct objects, because its final strict-equality comparison is object
identity. -/
theorem matrix_not_inspected (ts ts' : List Transform)
    (h : List.Forall₂ agreeExceptMatrix ts ts') :
    (transformsHaveSameLengthTypesAndOrder ts ts' = true ∧
      transformListsAreEqual ts ts' = true)
    ∧ ∀ r r' : ℕ, r ≠ r' →
        transitionStyleHasChanged (some [("transform", StyleValue.list r ts)])
          (some [("transform", StyleValue.list r' ts')]) = true := by
  refine ⟨⟨sameShape_of_forall₂_agree ts ts' h,
    valuesEqual_of_forall₂_agree ts ts' h⟩, ?_⟩
  intro r r' hr
  have hsym : List.Forall₂ agreeExceptMatrix ts' ts := by
    induction h with
    | nil => exact .nil
    | cons hxy _ ih => exact .cons (agreeExceptMatrix_symm _ _ hxy) ih
  have heq : transformListsAreEqual ts' ts = true :=
    valuesEqual_of_forall₂_agree ts' ts hsym
  show ([("transform", StyleValue.list r ts)].any fun kv =>
    transitionChangedAt [("transform", StyleValue.list r ts)]
      [("transform", StyleValue.list r' ts')] kv.1) = true
  simp only [List.any_cons, List.any_nil, Bool.or_false]
  simp only [transitionChangedAt, jsGet]
  simp [jsTypeofO, heq, strictEqO, strictEqV, Ne.symm hr]

lemma jsGet_jsSet_self {α : Type} (l : List (String × α)) (k : String) (v : α) :
    jsGet (jsSet l k v) k = some v := by
  induction l with
  | nil => simp [jsSet, jsGet]
  | cons kv rest ih =>
    obtain ⟨k', w⟩ := kv
    by_cases hk : k' = k
    · subst hk
      simp [jsSet, jsGet]
    · simp [jsSet, jsGet, hk, ih]

lemma buildAnimated_agree (act : Bool) (prev : Option Style) (q : String)
    (hq : q ≠ "transform") :
    ∀ (entries : Style) (acc₁ acc₂ : List (String × AnimOut)) (ds₁ ds₂ : List Diag),
      jsGet acc₁ q = jsGet acc₂ q →
      jsGet (buildAnimated act prev entries acc₁ ds₁).1 q =
        jsGet (buildAnimated act prev
          (entries.filter fun kv => decide (kv.1 ≠ "transform")) acc₂ ds₂).1 q := by
  intro entries
  induction entries with
  | nil => intro acc₁ acc₂ ds₁ ds₂ hacc; exact hacc
  | cons kv rest ih =>
    intro acc₁ acc₂ ds₁ ds₂ hacc
    obtain ⟨k, v⟩ := kv
    by_cases hk : k = "transform"
    · subst hk
      have hfilter : ((("transform", v) :: rest).filter
          fun kv => decide (kv.1 ≠ "transform")) =
          rest.filter fun kv => decide (kv.1 ≠ "transform") := by
        simp [List.filter]
      rw [hfilter]
      rcases hav : animateStyleValue act prev "transform" v with ⟨o, ds2⟩
      cases o with
      | none =>
        simp only [buildAnimated, hav]
        exact ih acc₁ acc₂ _ ds₂ hacc
      | some w =>
        simp only [buildAnimated, hav]
        exact ih (jsSet acc₁ "transform" w) acc₂ _ ds₂
          ((jsGet_jsSet_ne _ _ _ _ (Ne.symm hq)).trans hacc)
    · have hfilter : (((k, v) :: rest).filter
          fun kv => decide (kv.1 ≠ "transform")) =
          (k, v) :: rest.filter fun kv => decide (kv.1 ≠ "transform") := by
        simp [List.filter, hk]
      rw [hfilter]
      rcases hav : animateStyleValue act prev k v with ⟨o, ds2⟩
      cases o with
      | none =>
        simp only [buildAnimated, hav]
        exact ih acc₁ acc₂ _ _ hacc
      | some w =>
        simp only [buildAnimated, hav]
        apply ih
        by_cases hkq : k = q
        · subst hkq
          rw [jsGet_jsSet_self, jsGet_jsSet_self]
        · rw [jsGet_jsSet_ne _ _ _ _ hkq, jsGet_jsSet_ne _ _ _ _ hkq, hacc]

/-- C10 amended, instantiated at singleton stacks with distinct matrix
payloads and distinct array identities. -/
theorem matrix_not_inspected_witness :
    (transformsHaveSameLengthTypesAndOrder [{ matrix := some [1] }]
        [{ matrix := some [3] }] = true
     ∧ transformListsAreEqual [{ matrix := some [1] }]
        [{ matrix := some [3] }] = true)
    ∧ transitionStyleHasChanged
        (some [("transform", StyleValue.list 5 [{ matrix := some [1] }])])
        (some [("transform", StyleValue.list 6 [{ matrix := some [3] }])]) = true := by
  have h := matrix_not_inspected [{ matrix := some [1] }] [{ matrix := some [3] }]
    (.cons (by decide) .nil)
  exact ⟨h.1, h.2 5 6 (by decide)⟩

/-- C4 counterexample. When the transitionable subset is undefined the hook
returns the raw input style verbatim, so the output still contains the
reserved directive key `transitionDelay`. -/
theorem useStyleTransition_reserved_cex :
    jsGet (useStyleTransition [("transitionDelay", .num 5)]
        ⟨some [("transitionDelay", .num 5)], none, none⟩).output "transitionDelay" =
      some (.lit (.num 5))
    ∧ "transitionDelay" ∈ reservedKeys := by decide

/-- C4 amended. On the path where the transitionable subset is defined and
no change is detected, every key outside the subset behaves as the claim
states: a reserved key is absent from the output and any other key passes
through verbatim from the raw input. (On the change-detected and
undefined-subset paths the raw input is returned, reserved keys
included.) -/
theorem useStyleTransition_output_keys (style : Style) (st : HookState) (ts : Style)
    (hts : mkTransitionStyle style = some ts)
    (hchg : transitionStyleHasChanged (some ts) st.currentStyle = false)
    (q : String) (hq : jsGet ts q = none) :
    (q ∈ reservedKeys → jsGet (useStyleTransition style st).output q = none)
    ∧ (q ∉ reservedKeys →
        jsGet (useStyleTransition style st).output q =
          (jsGet style q).map AnimOut.lit) := by
  have hout : (useStyleTransition style st).output =
      objectAssign ((style.filter fun kv => decide (kv.1 ∉ reservedKeys)).map
        fun kv => (kv.1, AnimOut.lit kv.2))
        (buildAnimated st.animatedValue.isSome st.previousStyle ts [] []).1 := by
    simp only [useStyleTransition, hts, hchg, Bool.false_eq_true, if_false]
  have hbuilt : jsGet
      (buildAnimated st.animatedValue.isSome st.previousStyle ts [] []).1 q = none :=
    buildAnimated_jsGet_none _ _ _ _ hq [] []
  rw [hout, objectAssign_jsGet_none q _ hbuilt, jsGet_map_lit,
    jsGet_filter_key (fun k => decide (k ∉ reservedKeys)) style q]
  constructor
  · intro hmem
    simp [hmem]
  · intro hnot
    simp [hnot]

/-- C4 amended, instantiated: on a no-change cycle with subset `opacity`,
the reserved key `transitionDelay` is absent from the output and the
non-transitionable `width` passes through verbatim. -/
theorem useStyleTransition_output_keys_witness :
    jsGet (useStyleTransition
        [("opacity", .num 1), ("width", .num 5),
         ("transitionProperty", .str "opacity"), ("transitionDelay", .num 3)]
        ⟨some [("opacity", .num 1), ("width", .num 5),
           ("transitionProperty", .str "opacity"), ("transitionDelay", .num 3)],
         some [("opacity", .num 1), ("width", .num 5),
           ("transitionProperty", .str "opacity"), ("transitionDelay", .num 3)],
         some 0⟩).output "transitionDelay" = none
    ∧ jsGet (useStyleTransition
        [("opacity", .num 1), ("width", .num 5),
         ("transitionProperty", .str "opacity"), ("transitionDelay", .num 3)]
        ⟨some [("opacity", .num 1), ("width", .num 5),
           ("transitionProperty", .str "opacity"), ("transitionDelay", .num 3)],
         some [("opacity", .num 1), ("width", .num 5),
           ("transitionProperty", .str "opacity"), ("transitionDelay", .num 3)],
         some 0⟩).output "width" = some (.lit (.num 5)) := by
  have h1 := useStyleTransition_output_keys
    [("opacity", .num 1), ("width", .num 5),
     ("transitionProperty", .str "opacity"), ("transitionDelay", .num 3)]
    ⟨some [("opacity", .num 1), ("width", .num 5),
       ("transitionProperty", .str "opacity"), ("transitionDelay", .num 3)],
     some [("opacity", .num 1), ("width", .num 5),
       ("transitionProperty", .str "opacity"), ("transitionDelay", .num 3)],
     some 0⟩ [("opacity", .num 1)] (by decide) (by decide) "transitionDelay" (by decide)
  have h2 := useStyleTransition_output_keys
    [("opacity", .num 1), ("width", .num 5),
     ("transitionProperty", .str "opacity"), ("transitionDelay", .num 3)]
    ⟨some [("opacity", .num 1), ("width", .num 5),
       ("transitionProperty", .str "opacity"), ("transitionDelay", .num 3)],
     some [("opacity", .num 1), ("width", .num 5),
       ("transitionProperty", .str "opacity"), ("transitionDelay", .num 3)],
     some 0⟩ [("opacity", .num 1)] (by decide) (by decide) "width" (by decide)
  exact ⟨h1.1 (by decide), (h2.2 (by decide)).trans (by decide)⟩

/-- C5 counterexample. A from-entry carrying a kind (rotate) that the
to-entry at the same position lacks is a kind-per-position difference, yet
the engine neither emits the to stack verbatim nor raises a diagnostic: it
animates the property, dropping the extra kind. -/
theorem animateStyleValue_kind_drop_cex :
    (kindPresent .rotate { scale := some (.num 1), rotate := some (.str "10deg") } = true
     ∧ kindPresent .rotate ({ scale := some (.num 2) } : Transform) = false)
    ∧ animateStyleValue true
        (some [("transform",
          .list 0 [{ scale := some (.num 1), rotate := some (.str "10deg") }])])
        "transform" (.list 1 [{ scale := some (.num 2) }]) =
      (some (.trans [⟨.scale, .val (.num 1), .val (.num 2)⟩]), []) := by decide

/-- C5 amended. When the from value is a distinct transform array and the
stacks have different lengths, or a to-entry contains matrix, or a kind
present in a to-entry is absent from the from-entry (the one-directional
shape check), the engine emits the to stack verbatim with exactly one
diagnostic; and for any other property key the animated output is the same
whether or not a transform entry is present in the subset. -/
theorem animateStyleValue_transform_fallback :
    (∀ (prev : Option Style) (r r' : ℕ) (ts refs : List Transform),
      (prev.bind fun p => jsGet p "transform") = some (.list r' refs) →
      r ≠ r' →
      (ts.length ≠ refs.length ∨ ts.any (fun t => t.matrix.isSome) = true ∨
        transformsHaveSameLengthTypesAndOrder ts refs = false) →
      ∃ d, animateStyleValue true prev "transform" (.list r ts) =
        (some (.lit (.list r ts)), [d]))
    ∧ (∀ (act : Bool) (prev : Option Style) (entries : Style) (q : String)
        (acc : List (String × AnimOut)) (ds : List Diag), q ≠ "transform" →
        jsGet (buildAnimated act prev entries acc ds).1 q =
          jsGet (buildAnimated act prev
            (entries.filter fun kv => decide (kv.1 ≠ "transform")) acc ds).1 q) := by
  constructor
  · intro prev r r' ts refs hprev hr htrig
    by_cases hl : ts.length = refs.length
    · by_cases hm : ts.any (fun t => t.matrix.isSome) = true
      · refine ⟨.matrixNotAnimatable, ?_⟩
        simp [animateStyleValue, hprev, strictEqV, Ne.symm hr, hl, hm]
      · have hshape : transformsHaveSameLengthTypesAndOrder ts refs = false := by
          rcases htrig with h | h | h
          · exact absurd hl h
          · exact absurd h hm
          · exact h
        refine ⟨.transformTypeMismatch, ?_⟩
        simp [animateStyleValue, hprev, strictEqV, Ne.symm hr, hl, hm, hshape]
    · refine ⟨.transformCountMismatch, ?_⟩
      simp [animateStyleValue, hprev, strictEqV, Ne.symm hr, hl]
  · intro act prev entries q acc ds hq
    exact buildAnimated_agree act prev q hq entries acc acc ds ds rfl

/-- C5 amended, instantiated: a length mismatch with a distinct from array
yields the verbatim to stack and one diagnostic, and the opacity output is
unaffected by the presence of the transform entry. -/
theorem animateStyleValue_transform_fallback_witness :
    (∃ d, animateStyleValue true
        (some [("transform", .list 0 [{ scale := some (.num 1) }])])
        "transform"
        (.list 1 [{ scale := some (.num 2) }, { rotate := some (.str "90deg") }]) =
      (some (.lit (.list 1 [{ scale := some (.num 2) },
        { rotate := some (.str "90deg") }])), [d]))
    ∧ jsGet (buildAnimated true
        (some [("transform", .list 0 [{ scale := some (.num 1) }])])
        [("opacity", .num 1), ("transform", .list 1 [{ matrix := some [1] }])]
        [] []).1 "opacity" =
      jsGet (buildAnimated true
        (some [("transform", .list 0 [{ scale := some (.num 1) }])])
        ([("opacity", .num 1),
          ("transform", .list 1 [{ matrix := some [1] }])].filter
            fun kv => decide (kv.1 ≠ "transform")) [] []).1 "opacity" := by
  constructor
  · exact animateStyleValue_transform_fallback.1
      (some [("transform", .list 0 [{ scale := some (.num 1) }])]) 1 0
      [{ scale := some (.num 2) }, { rotate := some (.str "90deg") }]
      [{ scale := some (.num 1) }] (by decide) (by decide) (Or.inl (by decide))
  · exact animateStyleValue_transform_fallback.2 true
      (some [("transform", .list 0 [{ scale := some (.num 1) }])])
      [("opacity", .num 1), ("transform", .list 1 [{ matrix := some [1] }])]
      "opacity" [] [] (by decide)

end RSD

